import Mathlib

/-!
Verification of the NCAA football data-collection pipeline
(`src/data_pipeline/collectors.py`, `main.py`) against its specification.

The Python code is shallowly embedded: JSON values become an inductive
type, the fetch pipeline becomes a pure function over an explicit
environment describing the cache read, the network response and the
cache-write outcome, the `ratelimit` decorator (`limits` + `sleep_and_retry`)
becomes an explicit fixed-window counter with a logical clock, and the
normalizers become pure functions on embedded JSON.
-/

namespace NCAAF

/-- Embedded JSON values.  Python `dict`s are association lists in key
insertion order; Python numbers are collapsed to `Int` (no claim here
depends on float arithmetic). -/
inductive Json where
  | null
  | bool (b : Bool)
  | num (n : Int)
  | str (s : String)
  | arr (elems : List Json)
  | obj (fields : List (String × Json))
deriving Repr

mutual

/-- Structural equality on embedded JSON (Python's `==`). -/
def Json.beq : Json → Json → Bool
  | .null, .null => true
  | .bool a, .bool b => a == b
  | .num a, .num b => a == b
  | .str a, .str b => a == b
  | .arr xs, .arr ys => Json.beqList xs ys
  | .obj xs, .obj ys => Json.beqFields xs ys
  | _, _ => false

def Json.beqList : List Json → List Json → Bool
  | [], [] => true
  | x :: xs, y :: ys => Json.beq x y && Json.beqList xs ys
  | _, _ => false

def Json.beqFields : List (String × Json) → List (String × Json) → Bool
  | [], [] => true
  | (k, x) :: xs, (l, y) :: ys => k == l && Json.beq x y && Json.beqFields xs ys
  | _, _ => false

end

instance : BEq Json := ⟨Json.beq⟩

/-- Python's `d.get(k)` on a dict: the value bound to `k`, or `None` when
absent.  On a non-dict the Python expression would raise; the embedding
returns `none` and all theorems keep to the dict domain. -/
def getField (j : Json) (k : String) : Option Json :=
  match j with
  | .obj fields => fields.lookup k
  | _ => none

/-- Python truthiness of a decoded JSON value (`if data:`). -/
def jsonTruthy : Json → Bool
  | .null => false
  | .bool b => b
  | .num n => n != 0
  | .str s => s != ""
  | .arr elems => !elems.isEmpty
  | .obj fields => !fields.isEmpty

/-! ### Cache key (`_fetch_data`, collectors.py lines 59-63)

`cache_key = f"ncaa_cache:{url}"`; when params are present,
`"&".join(f"{k}={v}" for k, v in sorted(params.items()))` is appended
after a `?`.  Python's `sorted` on `(key, value)` string pairs orders
them lexicographically: by key, ties broken by value. -/

/-- The order by which Python's `sorted` arranges `(key, value)` pairs. -/
def paramLe (p q : String × String) : Prop :=
  p.1 < q.1 ∨ (p.1 = q.1 ∧ p.2 ≤ q.2)

instance : DecidableRel paramLe := fun p q => by
  unfold paramLe; infer_instance

/-- Cache key for a URL and a parameter mapping, given as the dict's
items in insertion order. -/
def cache_key (url : String) (params : List (String × String)) : String :=
  if params.isEmpty then
    "ncaa_cache:" ++ url
  else
    "ncaa_cache:" ++ url ++ "?" ++
      String.intercalate "&"
        ((params.insertionSort paramLe).map (fun p => p.1 ++ "=" ++ p.2))

theorem paramLe_total (p q : String × String) : paramLe p q ∨ paramLe q p := by
  rcases lt_trichotomy p.1 q.1 with h | h | h
  · exact Or.inl (Or.inl h)
  · rcases le_total p.2 q.2 with h2 | h2
    · exact Or.inl (Or.inr ⟨h, h2⟩)
    · exact Or.inr (Or.inr ⟨h.symm, h2⟩)
  · exact Or.inr (Or.inl h)

theorem paramLe_trans {p q r : String × String}
    (h1 : paramLe p q) (h2 : paramLe q r) : paramLe p r := by
  rcases h1 with h1 | ⟨e1, l1⟩
  · rcases h2 with h2 | ⟨e2, _⟩
    · exact Or.inl (h1.trans h2)
    · exact Or.inl (e2 ▸ h1)
  · rcases h2 with h2 | ⟨e2, l2⟩
    · exact Or.inl (e1 ▸ h2)
    · exact Or.inr ⟨e1.trans e2, l1.trans l2⟩

theorem paramLe_antisymm {p q : String × String}
    (h1 : paramLe p q) (h2 : paramLe q p) : p = q := by
  rcases h1 with h1 | ⟨e1, l1⟩
  · rcases h2 with h2 | ⟨e2, _⟩
    · exact absurd (h1.trans h2) (lt_irrefl _)
    · exact absurd (e2 ▸ h1) (lt_irrefl _)
  · rcases h2 with h2 | ⟨_, l2⟩
    · exact absurd (e1 ▸ h2) (lt_irrefl _)
    · exact Prod.ext e1 (le_antisymm l1 l2)

instance : IsTotal (String × String) paramLe := ⟨paramLe_total⟩
instance : IsTrans (String × String) paramLe := ⟨fun _ _ _ => paramLe_trans⟩
instance : IsAntisymm (String × String) paramLe := ⟨fun _ _ => paramLe_antisymm⟩

theorem insertionSort_paramLe_eq_of_perm {l₁ l₂ : List (String × String)}
    (h : l₁.Perm l₂) :
    l₁.insertionSort paramLe = l₂.insertionSort paramLe :=
  List.eq_of_perm_of_sorted
    (((List.perm_insertionSort paramLe l₁).trans h).trans
      (List.perm_insertionSort paramLe l₂).symm)
    (List.sorted_insertionSort paramLe l₁)
    (List.sorted_insertionSort paramLe l₂)

/-! ### The fetch pipeline (`_fetch_data`, collectors.py lines 40-101)

`_fetch_data` consults the Redis cache; on a hit it returns the parsed
cached payload (the stored strings are `json.dumps` output, which is
never empty, so the truthiness test on the cached string coincides with
key presence).  A cache-read exception is logged and control falls
through to the network call.  On HTTP 200 the body is parsed, written
to the cache best-effort (a write exception is logged and ignored) and
returned; any other status, a connection error, or an unexpected
exception yields `None`. -/

/-- Outcome of the Redis `get`: key present (with the cached payload),
key absent/expired, or the read raised. -/
inductive CacheReadResult where
  | hit (payload : Json)
  | miss
  | err
deriving Repr

/-- Outcome of the one network call, were it performed. -/
inductive NetResult where
  | ok (body : Json)
  | httpErr (status : Nat)
  | connErr
  | otherErr
deriving Repr

/-- Environment of one `_fetch_data` call: what the cache read, the
network and the cache write would do. -/
structure FetchEnv where
  cacheRead : CacheReadResult
  net : NetResult
  cacheWriteFails : Bool
deriving Repr

/-- How a failed fetch was classified (distinct log branches in the
source: `HTTP {status} error`, `Connection error`, `Unexpected error`). -/
inductive FailKind where
  | httpStatus (status : Nat)
  | connection
  | unexpected
deriving Repr, DecidableEq

/-- Observable outcome of one `_fetch_data` call: the returned value,
the number of network calls made, the payload written to the cache (if
any) and the failure classification (if any). -/
structure FetchOutcome where
  result : Option Json
  networkCalls : Nat
  cacheWrite : Option Json
  failure : Option FailKind
deriving Repr

/-- Embedding of `_fetch_data`. -/
def fetchData (env : FetchEnv) : FetchOutcome :=
  match env.cacheRead with
  | .hit payload =>
      { result := some payload, networkCalls := 0,
        cacheWrite := none, failure := none }
  | .miss =>
      fetchFromNetwork env
  | .err =>
      fetchFromNetwork env
where
  /-- The part of `_fetch_data` after the cache lookup: one network
  call, then the status dispatch. -/
  fetchFromNetwork (env : FetchEnv) : FetchOutcome :=
    match env.net with
    | .ok body =>
        { result := some body, networkCalls := 1,
          cacheWrite := if env.cacheWriteFails then none else some body,
          failure := none }
    | .httpErr status =>
        { result := none, networkCalls := 1,
          cacheWrite := none, failure := some (.httpStatus status) }
    | .connErr =>
        { result := none, networkCalls := 1,
          cacheWrite := none, failure := some .connection }
    | .otherErr =>
        { result := none, networkCalls := 1,
          cacheWrite := none, failure := some .unexpected }

/-! ### The rate limiter (`@limits(calls, period)` + `@sleep_and_retry`)

Each decorated collector method owns one `RateLimitDecorator` instance
holding `(last_reset, num_calls)`.  On invocation: when the period has
elapsed the counter resets to the current time; the counter increments;
when it exceeds the max a `RateLimitException` carrying the remaining
period is raised, which `sleep_and_retry` converts into a sleep until
window rollover followed by a retry (which then resets the window and
proceeds).  The embedding uses a logical clock (`Nat` seconds); under
the single-worker, sequential scheduling of the orchestrator the retry
happens exactly at `last_reset + period` and succeeds at once. -/

structure LimState where
  lastReset : Nat
  numCalls : Nat
deriving Repr, DecidableEq

/-- One limiter acquisition at logical time `now`: the updated limiter
state and the time at which the wrapped call is permitted to proceed
(equal to `now` when under budget, the window rollover otherwise — the
caller suspends, it is never dropped and no error escapes). -/
def acquire (maxCalls period : Nat) (s : LimState) (now : Nat) :
    LimState × Nat :=
  if period ≤ now - s.lastReset then
    ({ lastReset := now, numCalls := 1 }, now)
  else if s.numCalls + 1 ≤ maxCalls then
    ({ s with numCalls := s.numCalls + 1 }, now)
  else
    ({ lastReset := s.lastReset + period, numCalls := 1 },
      s.lastReset + period)

/-- A run of one limiter instance: its state, the time of the most
recent grant, and a log of `(window tag, grant time)` pairs, the tag
being the limiter's `last_reset` at the moment of the grant. -/
structure LimRun where
  state : LimState
  lastGrant : Nat
  log : List (Nat × Nat)
deriving Repr

/-- The fresh limiter created at decoration time (clock origin 0). -/
def initLimRun : LimRun :=
  { state := { lastReset := 0, numCalls := 0 }, lastGrant := 0, log := [] }

/-- One decorated call, issued `delay` time units after the previous
grant (sequential issuance: the next request cannot start before the
previous one was permitted). -/
def stepLim (maxCalls period : Nat) (r : LimRun) (delay : Nat) : LimRun :=
  let now := r.lastGrant + delay
  let sg := acquire maxCalls period r.state now
  { state := sg.1, lastGrant := sg.2, log := r.log ++ [(sg.1.lastReset, sg.2)] }

/-- A sequence of decorated calls given by their inter-request delays. -/
def runLim (maxCalls period : Nat) (r : LimRun) (delays : List Nat) : LimRun :=
  delays.foldl (stepLim maxCalls period) r

/-- Number of grants a log records inside the fixed window tagged `w`. -/
def countTag (log : List (Nat × Nat)) (w : Nat) : Nat :=
  (log.filter (fun e => e.1 = w)).length

/-! ### Collector methods

Every public collector is decorated with `@sleep_and_retry` and
`@limits(...)` — the rate permit is taken at method invocation, before
the cache is consulted — and ends with `if data: return data else:
log error; return []` (list-returning collectors) resp. the structured
variants below. -/

/-- Observable outcome of one list-returning collector invocation. -/
structure CollectOutcome where
  run : LimRun
  result : Json
  networkCalls : Nat
  cacheWrite : Option Json
  failureReported : Bool
deriving Repr

/-- Embedding of `collect_player_season_stats` (collectors.py lines
104-133): limiter `limits(calls=50, period=60)` wrapping the whole
method, then `_fetch_data`, then the truthiness gate on the decoded
payload (`if data: return data else: return []` with an error log). -/
def collect_player_season_stats (r : LimRun) (delay : Nat) (env : FetchEnv) :
    CollectOutcome :=
  let r' := stepLim 50 60 r delay
  let f := fetchData env
  { run := r',
    result := match f.result with
              | some d => if jsonTruthy d then d else Json.arr []
              | none => Json.arr [],
    networkCalls := f.networkCalls,
    cacheWrite := f.cacheWrite,
    failureReported := match f.result with
                       | some d => !jsonTruthy d
                       | none => true }

/-! ### Game-stats normalizer (`collect_game_stats`, lines 415-474)

Gate: `if data and isinstance(data, list) and len(data) >= 2`.  The
loop skips entries whose `team` field is absent or falsy
(`if not team_name: continue`), extracts thirteen statistics from the
entry's `stats` sub-object (defaulting to `{}` when absent), and files
the first kept entry under `team_1` (`if not game_stats:`, i.e. the
dict is still empty) and every later kept entry under `team_2`. -/

structure GameTeamStats where
  team : Json
  totalYards : Option Json
  netPassingYards : Option Json
  rushingYards : Option Json
  turnovers : Option Json
  thirdDownEff : Option Json
  sacks : Option Json
  tacklesForLoss : Option Json
  passCompletionPercentage : Option Json
  timeOfPossession : Option Json
  firstDowns : Option Json
  fourthDownEff : Option Json
  penalties : Option Json
  penaltyYards : Option Json
deriving Repr

/-- The `processed_stats` dict built for one team-stat entry. -/
def processTeamStats (teamName : Json) (stats : Json) : GameTeamStats :=
  { team := teamName,
    totalYards := getField stats "totalYards",
    netPassingYards := getField stats "netPassingYards",
    rushingYards := getField stats "rushingYards",
    turnovers := getField stats "turnovers",
    thirdDownEff := getField stats "thirdDownEff",
    sacks := getField stats "sacks",
    tacklesForLoss := getField stats "tacklesForLoss",
    passCompletionPercentage := getField stats "passCompletionPercentage",
    timeOfPossession := getField stats "timeOfPossession",
    firstDowns := getField stats "firstDowns",
    fourthDownEff := getField stats "fourthDownEff",
    penalties := getField stats "penalties",
    penaltyYards := getField stats "penaltyYards" }

/-- `team_name = team_stats.get('team')` followed by the truthiness
guard `if not team_name: continue`. -/
def teamNameOf (entry : Json) : Option Json :=
  match getField entry "team" with
  | none => none
  | some v => if jsonTruthy v then some v else none

/-- `stats = team_stats.get('stats', {})`. -/
def statsOf (entry : Json) : Json :=
  (getField entry "stats").getD (Json.obj [])

/-- The `game_stats` dict: only the keys `team_1` and `team_2` are
ever assigned. -/
structure GameStatsRec where
  team_1 : Option GameTeamStats
  team_2 : Option GameTeamStats
deriving Repr

/-- The entry loop of `collect_game_stats`, folding over the response
entries.  `if not game_stats:` tests emptiness of the dict, i.e. that
neither slot has been assigned yet. -/
def pairAux (gs : GameStatsRec) : List Json → GameStatsRec
  | [] => gs
  | entry :: rest =>
    match teamNameOf entry with
    | none => pairAux gs rest
    | some name =>
      let processed := processTeamStats name (statsOf entry)
      if gs.team_1.isNone && gs.team_2.isNone then
        pairAux { gs with team_1 := some processed } rest
      else
        pairAux { gs with team_2 := some processed } rest

/-- Embedding of the normalization step of `collect_game_stats` on the
decoded payload (`data` below).  `data and isinstance(data, list) and
len(data) >= 2` holds exactly of lists of length at least two; every
other payload — `None`, a non-list, a short list — yields `None`. -/
def collect_game_stats_norm (data : Option Json) : Option GameStatsRec :=
  match data with
  | some (.arr entries) =>
      if 2 ≤ entries.length then some (pairAux ⟨none, none⟩ entries)
      else none
  | _ => none

/-! ### Teams normalizer (`collect_teams_data`, lines 312-352)

On a truthy decoded payload, one `team_dict` is appended for *every*
upstream object — nothing is dropped, each field is `team.get(...)`
(absent fields stay `None`, `logos` defaults to `[]`). -/

structure TeamRec where
  school : Option Json
  conference : Option Json
  division : Option Json
  mascot : Option Json
  abbreviation : Option Json
  alt_name_1 : Option Json
  alt_name_2 : Option Json
  alt_name_3 : Option Json
  color : Option Json
  alt_color : Option Json
  logos : Json
deriving Repr

def processTeam (team : Json) : TeamRec :=
  { school := getField team "school",
    conference := getField team "conference",
    division := getField team "division",
    mascot := getField team "mascot",
    abbreviation := getField team "abbreviation",
    alt_name_1 := getField team "alt_name_1",
    alt_name_2 := getField team "alt_name_2",
    alt_name_3 := getField team "alt_name_3",
    color := getField team "color",
    alt_color := getField team "alt_color",
    logos := (getField team "logos").getD (Json.arr []) }

/-- Normalization step of `collect_teams_data` on the decoded array
(`None` for a failed fetch).  `if data:` — a `None` or empty payload
takes the failure branch and returns `[]`. -/
def collect_teams_data_norm (data : Option (List Json)) : List TeamRec :=
  match data with
  | some teams => if teams.isEmpty then [] else teams.map processTeam
  | none => []

/-! ### Schedule normalizer (`collect_schedule`, lines 354-413)

One `game_dict` per upstream game object, never dropped.  The
`start_date` string is parsed when present and truthy; a parse failure
(`ValueError`/`AttributeError`, which also covers non-string truthy
values) leaves the date `None`.  The ISO-8601 parser itself is outside
the embedded fragment and is passed in as a parameter. -/

structure GameRec where
  id : Option Json
  season : Option Json
  week : Option Json
  season_type : Option Json
  start_date : Option Json
  home_team : Option Json
  away_team : Option Json
  home_points : Option Json
  away_points : Option Json
  venue : Option Json
  venue_id : Option Json
  neutral_site : Option Json
  conference_game : Option Json
  attendance : Option Json
deriving Repr

/-- `if game.get('start_date'): try: parse ... except: pass`. -/
def gameStartDate (parseIso : String → Option Json) (game : Json) :
    Option Json :=
  match getField game "start_date" with
  | some (.str s) => if s = "" then none else parseIso s
  | _ => none

def processGame (parseIso : String → Option Json) (game : Json) : GameRec :=
  { id := getField game "id",
    season := getField game "season",
    week := getField game "week",
    season_type := getField game "season_type",
    start_date := gameStartDate parseIso game,
    home_team := getField game "home_team",
    away_team := getField game "away_team",
    home_points := getField game "home_points",
    away_points := getField game "away_points",
    venue := getField game "venue",
    venue_id := getField game "venue_id",
    neutral_site := getField game "neutral_site",
    conference_game := getField game "conference_game",
    attendance := getField game "attendance" }

/-- Normalization step of `collect_schedule` on the decoded array. -/
def collect_schedule_norm (parseIso : String → Option Json)
    (data : Option (List Json)) : List GameRec :=
  match data with
  | some games => if games.isEmpty then [] else games.map (processGame parseIso)
  | none => []

/-! ### Betting-lines normalizer (`collect_betting_lines`, lines 476-563)

Gate `if data and isinstance(data, list)`; per game, per bookmaker one
`line_data` record; markets keyed `spreads`/`totals` fill the spread
and total fields by matching each outcome's `name` against the game's
`home_team` / `away_team` resp. the labels `Over`/`Under`.  Python's
`==` between `.get` results is structural equality with `None == None`
true, mirrored by `BEq (Option Json)`. -/

structure LineRec where
  home_team : Option Json
  away_team : Option Json
  commence_time : Option Json
  bookmaker : Option Json
  spread_point : Option Json
  spread_home_price : Option Json
  spread_away_price : Option Json
  total_point : Option Json
  total_over_price : Option Json
  total_under_price : Option Json
deriving Repr

/-- `game.get(key, [])` for list-valued keys: the bound list, `[]` when
absent. -/
def listFieldOf (j : Json) (key : String) : List Json :=
  match getField j key with
  | some (.arr elems) => elems
  | _ => []

/-- `if commence_time: try: fromisoformat ... except (ValueError,
AttributeError): pass` — non-string truthy values raise
`AttributeError` at `.replace` and are caught, leaving `None`. -/
def commenceTimeOf (parseIso : String → Option Json) (game : Json) :
    Option Json :=
  match getField game "commence_time" with
  | some (.str s) => if s = "" then none else parseIso s
  | _ => none

def applySpreadOutcome (home away : Option Json) (ld : LineRec)
    (outcome : Json) : LineRec :=
  if getField outcome "name" == home then
    { ld with spread_point := getField outcome "point",
              spread_home_price := getField outcome "price" }
  else if getField outcome "name" == away then
    { ld with spread_away_price := getField outcome "price" }
  else ld

def applyTotalsOutcome (ld : LineRec) (outcome : Json) : LineRec :=
  if getField outcome "name" == some (Json.str "Over") then
    { ld with total_point := getField outcome "point",
              total_over_price := getField outcome "price" }
  else if getField outcome "name" == some (Json.str "Under") then
    { ld with total_under_price := getField outcome "price" }
  else ld

def applyMarket (home away : Option Json) (ld : LineRec) (market : Json) :
    LineRec :=
  if getField market "key" == some (Json.str "spreads") then
    (listFieldOf market "outcomes").foldl (applySpreadOutcome home away) ld
  else if getField market "key" == some (Json.str "totals") then
    (listFieldOf market "outcomes").foldl applyTotalsOutcome ld
  else ld

def processBookmaker (home away gameTime : Option Json) (bookmaker : Json) :
    LineRec :=
  let init : LineRec :=
    { home_team := home, away_team := away, commence_time := gameTime,
      bookmaker := getField bookmaker "key",
      spread_point := none, spread_home_price := none,
      spread_away_price := none, total_point := none,
      total_over_price := none, total_under_price := none }
  (listFieldOf bookmaker "markets").foldl (applyMarket home away) init

def processOddsGame (parseIso : String → Option Json) (game : Json) :
    List LineRec :=
  let home := getField game "home_team"
  let away := getField game "away_team"
  let gameTime := commenceTimeOf parseIso game
  (listFieldOf game "bookmakers").map (processBookmaker home away gameTime)

/-- Normalization step of `collect_betting_lines` on the decoded
payload, paired with whether the failure branch (error log, `[]`) was
taken.  `data and isinstance(data, list)` holds exactly of non-empty
lists. -/
def collect_betting_lines_norm (parseIso : String → Option Json)
    (data : Option Json) : List LineRec × Bool :=
  match data with
  | some (.arr games) =>
      if games.isEmpty then ([], true)
      else (games.foldl (fun acc g => acc ++ processOddsGame parseIso g) [],
            false)
  | _ => ([], true)

structure CollectLinesOutcome where
  run : LimRun
  result : List LineRec
  networkCalls : Nat
  cacheWrite : Option Json
  failureReported : Bool
deriving Repr

/-- Embedding of `collect_betting_lines`: limiter
`limits(calls=450, period=3600)` wrapping the method, then
`_fetch_data`, then the normalizer. -/
def collect_betting_lines (parseIso : String → Option Json) (r : LimRun)
    (delay : Nat) (env : FetchEnv) : CollectLinesOutcome :=
  let r' := stepLim 450 3600 r delay
  let f := fetchData env
  let nb := collect_betting_lines_norm parseIso f.result
  { run := r', result := nb.1, networkCalls := f.networkCalls,
    cacheWrite := f.cacheWrite, failureReported := nb.2 }

/-! ### Two identical fetches (spec §8, cache correctness)

The second fetch's cache read sees whatever the first fetch wrote
(same cache key — identical URL and params — and well inside the one
hour TTL). -/

/-- Total network calls made by two identical back-to-back fetches
against a cold cache with a working cache store, when the network
behaves as `net` both times. -/
def twoFetches (net : NetResult) : Nat :=
  let first := fetchData { cacheRead := .miss, net := net, cacheWriteFails := false }
  let secondRead : CacheReadResult :=
    match first.cacheWrite with
    | some payload => .hit payload
    | none => .miss
  first.networkCalls +
    (fetchData { cacheRead := secondRead, net := net,
                 cacheWriteFails := false }).networkCalls

/-! ### Collection orchestrator (`collect_comprehensive_data`,
main.py lines 99-191)

The method body is one `try:` block running a fixed sequence of
sub-collections, each assigning one key of `collected_data`; the
week-by-week loops accumulate a list via
`if week_stats: weekly_team_stats.extend(week_stats)`.  The `except`
clause returns `collected_data` as accumulated so far instead of
re-raising.  A sub-collection is embedded as an `OpResult`: its normal
return value, or the fact that it raised. -/

inductive OpResult (α : Type) where
  | ok (val : α)
  | exn
deriving Repr, DecidableEq

/-- The weekly loop (main.py lines 160-166): per week one collector
call; an empty list contributes nothing and the loop continues; an
exception escapes the loop (to the method-level handler). -/
def collectWeeklyLoop (fetchWeek : Nat → OpResult (List Json)) :
    List Nat → List Json → OpResult (List Json)
  | [], acc => .ok acc
  | w :: ws, acc =>
    match fetchWeek w with
    | .ok stats =>
        collectWeeklyLoop fetchWeek ws
          (if stats.isEmpty then acc else acc ++ stats)
    | .exn => .exn

/-- The `try`/`except` sequencing of the sub-collection steps: each
`ok` step appends its key to `collected_data`; the first raising step
makes the handler return the accumulator as is. -/
def runSeason : List (OpResult (String × Json)) → List (String × Json) →
    List (String × Json)
  | [], acc => acc
  | .ok kv :: rest, acc => runSeason rest (acc ++ [kv])
  | .exn :: _, acc => acc

/-- Step 8 of `collect_comprehensive_data` as one sub-collection: the
whole weekly loop; only after the loop completes is the accumulated
list assigned into `collected_data`. -/
def weeklyStatsStep (fetchWeek : Nat → OpResult (List Json))
    (weeks : List Nat) : OpResult (String × Json) :=
  match collectWeeklyLoop fetchWeek weeks [] with
  | .ok stats => .ok ("weekly_team_stats", Json.arr stats)
  | .exn => .exn

/-- `collect_comprehensive_data`, abstracted over the outcome of each
of its sub-collection steps, returns the `collected_data` mapping in
assignment order. -/
def collect_comprehensive_data (steps : List (OpResult (String × Json))) :
    List (String × Json) :=
  runSeason steps []

/-! ## Claim theorems -/

/-- C3: for every URL and every two parameter mappings that are
permutations of the same key-value pairs, the computed cache keys are
equal — the key is the canonical string obtained by sorting the
parameter pairs and concatenating `key=value` segments. -/
theorem C3_cache_key_permutation_invariant (url : String)
    {P1 P2 : List (String × String)} (h : P1.Perm P2) :
    cache_key url P1 = cache_key url P2 := by
  have hsort := insertionSort_paramLe_eq_of_perm h
  have hempty : P1.isEmpty = P2.isEmpty := by
    rcases P1 with _ | ⟨a, l1⟩
    · rw [h.symm.eq_nil]
    · rcases P2 with _ | ⟨b, l2⟩
      · exact absurd h.eq_nil (List.cons_ne_nil a l1)
      · rfl
  unfold cache_key
  rw [hempty, hsort]

theorem C3_cache_key_permutation_invariant_witness :
    ([("year", "2024"), ("category", "passing")] :
        List (String × String)).Perm
      [("category", "passing"), ("year", "2024")] ∧
    cache_key "stats/player/season" [("year", "2024"), ("category", "passing")] =
      cache_key "stats/player/season" [("category", "passing"), ("year", "2024")] :=
  ⟨by decide, C3_cache_key_permutation_invariant "stats/player/season" (by decide)⟩

/-- C6: a cache-read error leaves the fetch outcome identical to a
cache miss (the fetch proceeds to the one network call and returns the
same result), and a cache-write error after a successful network fetch
still returns the fetched payload. -/
theorem C6_cache_errors_soft (net : NetResult) (wf : Bool) (body : Json) :
    (fetchData { cacheRead := .err, net := net, cacheWriteFails := wf } =
      fetchData { cacheRead := .miss, net := net, cacheWriteFails := wf }) ∧
    (fetchData { cacheRead := .err, net := net,
                 cacheWriteFails := wf }).networkCalls = 1 ∧
    (fetchData { cacheRead := .miss, net := .ok body,
                 cacheWriteFails := true }).result = some body := by
  refine ⟨?_, ?_, rfl⟩
  · cases net <;> rfl
  · cases net <;> rfl

/-- C7: a fetch reaching the network and getting a non-200 status
returns failure after exactly one network call (no retry) and writes
nothing to the cache, classified as an HTTP-status failure; a
connection-level error likewise returns failure after one call with no
cache write, classified as a connection failure; the two
classifications are distinct.  Both hold whether the network was
reached through a cache miss or a cache-read error. -/
theorem C7_http_and_connection_failures (status : Nat) (wf : Bool) :
    (fetchData { cacheRead := .miss, net := .httpErr status,
                 cacheWriteFails := wf } =
      { result := none, networkCalls := 1, cacheWrite := none,
        failure := some (.httpStatus status) }) ∧
    (fetchData { cacheRead := .err, net := .httpErr status,
                 cacheWriteFails := wf } =
      { result := none, networkCalls := 1, cacheWrite := none,
        failure := some (.httpStatus status) }) ∧
    (fetchData { cacheRead := .miss, net := .connErr,
                 cacheWriteFails := wf } =
      { result := none, networkCalls := 1, cacheWrite := none,
        failure := some .connection }) ∧
    (fetchData { cacheRead := .err, net := .connErr,
                 cacheWriteFails := wf } =
      { result := none, networkCalls := 1, cacheWrite := none,
        failure := some .connection }) ∧
    FailKind.httpStatus status ≠ FailKind.connection :=
  ⟨rfl, rfl, rfl, rfl, fun hk => FailKind.noConfusion hk⟩

/-- C8: a team-stat entry whose `stats` object lacks the key `sacks`
is normalized to a record whose `sacks` field is `none` — in
particular never the numeral 0. -/
theorem C8_missing_field_absent (teamName : Json)
    (fields : List (String × Json))
    (h : getField (Json.obj fields) "sacks" = none) :
    (processTeamStats teamName (Json.obj fields)).sacks = none ∧
    (processTeamStats teamName (Json.obj fields)).sacks ≠
      some (Json.num 0) := by
  refine ⟨h, ?_⟩
  rw [show (processTeamStats teamName (Json.obj fields)).sacks =
        getField (Json.obj fields) "sacks" from rfl, h]
  exact fun hk => Option.noConfusion hk

theorem C8_missing_field_absent_witness :
    getField (Json.obj [("totalYards", Json.num 412)]) "sacks" = none ∧
    ((processTeamStats (Json.str "Georgia")
        (Json.obj [("totalYards", Json.num 412)])).sacks = none ∧
     (processTeamStats (Json.str "Georgia")
        (Json.obj [("totalYards", Json.num 412)])).sacks ≠
       some (Json.num 0)) :=
  ⟨rfl, C8_missing_field_absent (Json.str "Georgia")
    [("totalYards", Json.num 412)] rfl⟩

/-- C10: for the list-returning collectors, an HTTP 200 response whose
decoded payload is the empty array produces the same public result as
a failed fetch: the empty list, with the failure branch (error log)
taken — callers cannot tell the two apart. -/
theorem C10_empty_array_looks_like_failure (r : LimRun) (delay : Nat)
    (wf : Bool) (status : Nat) (parseIso : String → Option Json) :
    ((collect_player_season_stats r delay
        { cacheRead := .miss, net := .ok (.arr []),
          cacheWriteFails := wf }).result = Json.arr [] ∧
     (collect_player_season_stats r delay
        { cacheRead := .miss, net := .ok (.arr []),
          cacheWriteFails := wf }).failureReported = true ∧
     (collect_player_season_stats r delay
        { cacheRead := .miss, net := .httpErr status,
          cacheWriteFails := wf }).result = Json.arr [] ∧
     (collect_player_season_stats r delay
        { cacheRead := .miss, net := .httpErr status,
          cacheWriteFails := wf }).failureReported = true) ∧
    ((collect_betting_lines parseIso r delay
        { cacheRead := .miss, net := .ok (.arr []),
          cacheWriteFails := wf }).result = [] ∧
     (collect_betting_lines parseIso r delay
        { cacheRead := .miss, net := .ok (.arr []),
          cacheWriteFails := wf }).failureReported = true ∧
     (collect_betting_lines parseIso r delay
        { cacheRead := .miss, net := .httpErr status,
          cacheWriteFails := wf }).result = [] ∧
     (collect_betting_lines parseIso r delay
        { cacheRead := .miss, net := .httpErr status,
          cacheWriteFails := wf }).failureReported = true) :=
  ⟨⟨rfl, rfl, rfl, rfl⟩, ⟨rfl, rfl, rfl, rfl⟩⟩

/-- C1 counterexample: a cache-hit invocation of
`collect_player_season_stats` (network untouched: zero network calls)
nevertheless advances its rate-limiter counter from 0 to 1, because
the `limits` decorator wraps the whole method and records the call
before the cache is consulted — refuting the claim that the
rate-limiter counter for the endpoint group is unchanged by a
cache-hit fetch. -/
theorem C1_counterexample :
    initLimRun.state.numCalls = 0 ∧
    (collect_player_season_stats initLimRun 0
      { cacheRead := .hit (Json.arr [Json.obj [("player", Json.str "QB1")]]),
        net := .otherErr, cacheWriteFails := false }).networkCalls = 0 ∧
    (collect_player_season_stats initLimRun 0
      { cacheRead := .hit (Json.arr [Json.obj [("player", Json.str "QB1")]]),
        net := .otherErr, cacheWriteFails := false }).run.state.numCalls = 1 :=
  ⟨rfl, rfl, rfl⟩

/-- C1 amended: a fetch whose cache key is present returns the cached
payload with zero network calls and no cache write, and an identical
fetch immediately following a successful one (the second read hitting
what the first wrote) issues exactly one network call in total; but
every invocation of the decorated collector consumes one permit of its
rate limiter — the limiter log grows by one — even on a cache hit,
because the limiter wraps the method, not the network call. -/
theorem C1_amended (payload body : Json) (net : NetResult) (wf : Bool)
    (r : LimRun) (delay : Nat) :
    (fetchData { cacheRead := .hit payload, net := net,
                 cacheWriteFails := wf } =
      { result := some payload, networkCalls := 0, cacheWrite := none,
        failure := none }) ∧
    twoFetches (.ok body) = 1 ∧
    (collect_player_season_stats r delay
        { cacheRead := .hit payload, net := net,
          cacheWriteFails := wf }).run.log.length = r.log.length + 1 := by
  refine ⟨rfl, rfl, ?_⟩
  simp [collect_player_season_stats, stepLim]

/-- Concrete two-entry game-stats response whose second entry lacks
the `team` field. -/
def gameStatsEntryAlpha : Json :=
  .obj [("team", .str "Alpha"), ("stats", .obj [("totalYards", .num 400)])]

/-- A team-stat entry with statistics but no `team` key. -/
def gameStatsEntryNoTeam : Json :=
  .obj [("stats", .obj [("totalYards", .num 250)])]

/-- C4 counterexample: a response with exactly two team-stat entries,
the second lacking a team name, is normalized to a single-sided record
— `team_1` populated, `team_2` empty — and not to the absent value:
the code skips nameless entries (`if not team_name: continue`) instead
of failing the game, refuting both "both slots populated" and "never a
single-sided record" for two-entry responses. -/
theorem C4_counterexample :
    collect_game_stats_norm
        (some (.arr [gameStatsEntryAlpha, gameStatsEntryNoTeam])) =
      some { team_1 := some (processTeamStats (Json.str "Alpha")
                              (Json.obj [("totalYards", Json.num 400)])),
             team_2 := none } := by
  rfl

/-- C4 amended: for a response of exactly two entries that both carry
a (truthy) team name, the normalizer fills `team_1` and `team_2` with
the two fully extracted stat records in input order, input order only
deciding which slot is which; and every response of fewer than two
entries yields the absent value, never a partial record.  (When one of
two entries lacks its team name the code instead emits a single-sided
record, per the counterexample.) -/
theorem C4_amended (e1 e2 n1 n2 : Json)
    (h1 : teamNameOf e1 = some n1) (h2 : teamNameOf e2 = some n2) :
    (collect_game_stats_norm (some (.arr [e1, e2])) =
      some { team_1 := some (processTeamStats n1 (statsOf e1)),
             team_2 := some (processTeamStats n2 (statsOf e2)) }) ∧
    (collect_game_stats_norm (some (.arr [e2, e1])) =
      some { team_1 := some (processTeamStats n2 (statsOf e2)),
             team_2 := some (processTeamStats n1 (statsOf e1)) }) ∧
    (∀ l : List Json, l.length < 2 →
      collect_game_stats_norm (some (.arr l)) = none) := by
  refine ⟨?_, ?_, ?_⟩
  · simp [collect_game_stats_norm, pairAux, h1, h2]
  · simp [collect_game_stats_norm, pairAux, h1, h2]
  · intro l hl
    have hlen : ¬ 2 ≤ l.length := by omega
    simp [collect_game_stats_norm, hlen]

theorem C4_amended_witness :
    teamNameOf gameStatsEntryAlpha = some (Json.str "Alpha") ∧
    teamNameOf (Json.obj [("team", Json.str "Beta")]) =
      some (Json.str "Beta") ∧
    ((collect_game_stats_norm
        (some (.arr [gameStatsEntryAlpha, Json.obj [("team", Json.str "Beta")]])) =
      some { team_1 := some (processTeamStats (Json.str "Alpha")
                              (statsOf gameStatsEntryAlpha)),
             team_2 := some (processTeamStats (Json.str "Beta")
                              (statsOf (Json.obj [("team", Json.str "Beta")]))) }) ∧
     (collect_game_stats_norm
        (some (.arr [Json.obj [("team", Json.str "Beta")], gameStatsEntryAlpha])) =
      some { team_1 := some (processTeamStats (Json.str "Beta")
                              (statsOf (Json.obj [("team", Json.str "Beta")]))),
             team_2 := some (processTeamStats (Json.str "Alpha")
                              (statsOf gameStatsEntryAlpha)) }) ∧
     (∀ l : List Json, l.length < 2 →
       collect_game_stats_norm (some (.arr l)) = none)) :=
  ⟨rfl, rfl, C4_amended gameStatsEntryAlpha (Json.obj [("team", Json.str "Beta")])
    (Json.str "Alpha") (Json.str "Beta") rfl rfl⟩

theorem runSeason_map_ok_append (pre : List (String × Json))
    (rest : List (OpResult (String × Json))) (acc : List (String × Json)) :
    runSeason (pre.map .ok ++ rest) acc = runSeason rest (acc ++ pre) := by
  induction pre generalizing acc with
  | nil => simp
  | cons kv pre ih =>
      simp only [List.map_cons, List.cons_append, runSeason]
      simpa [List.append_assoc] using ih (acc ++ [kv])

/-- C5: in a week-by-week batch, a week whose collector call fails
(returns the empty list) contributes nothing and the loop continues
with the remaining weeks unchanged; and when a sub-collection step
raises mid-sequence, `collect_comprehensive_data` returns exactly the
contributions accumulated before the raising step instead of
propagating the exception. -/
theorem C5_partial_failure_isolation
    (fetchWeek : Nat → OpResult (List Json)) (k : Nat) (ws : List Nat)
    (acc : List Json) (hk : fetchWeek k = .ok [])
    (pre : List (String × Json)) (post : List (OpResult (String × Json))) :
    collectWeeklyLoop fetchWeek (k :: ws) acc =
      collectWeeklyLoop fetchWeek ws acc ∧
    collect_comprehensive_data (pre.map .ok ++ .exn :: post) = pre := by
  constructor
  · simp [collectWeeklyLoop, hk]
  · unfold collect_comprehensive_data
    rw [runSeason_map_ok_append]
    simp [runSeason]

theorem C5_partial_failure_isolation_witness :
    (fun w => if w = 3 then OpResult.ok ([] : List Json)
              else .ok [Json.num (Int.ofNat w)]) 3 = .ok [] ∧
    (collectWeeklyLoop
        (fun w => if w = 3 then OpResult.ok ([] : List Json)
                  else .ok [Json.num (Int.ofNat w)])
        (3 :: [4, 5]) [Json.num 1] =
      collectWeeklyLoop
        (fun w => if w = 3 then OpResult.ok ([] : List Json)
                  else .ok [Json.num (Int.ofNat w)])
        [4, 5] [Json.num 1] ∧
     collect_comprehensive_data
        ([("teams", Json.arr []), ("schedule", Json.arr [])].map .ok ++
          .exn :: [.ok ("recruiting", Json.arr [])]) =
       [("teams", Json.arr []), ("schedule", Json.arr [])]) :=
  ⟨rfl, C5_partial_failure_isolation _ 3 [4, 5] [Json.num 1] rfl
    [("teams", Json.arr []), ("schedule", Json.arr [])]
    [.ok ("recruiting", Json.arr [])]⟩

/-- C9 counterexample: an upstream team object with no `school` field
is not dropped by the teams normalizer — it is emitted as a record
whose identity field `school` is `None`, refuting the claim that every
normalizer drops records missing their identity field. -/
theorem C9_counterexample :
    collect_teams_data_norm (some [Json.obj [("mascot", Json.str "Eagles")]]) =
      [{ school := none, conference := none, division := none,
         mascot := some (Json.str "Eagles"), abbreviation := none,
         alt_name_1 := none, alt_name_2 := none, alt_name_3 := none,
         color := none, alt_color := none, logos := Json.arr [] }] := by
  rfl

/-- C9 amended: only the game-stats normalizer drops records missing
their identity field — an entry whose `team` is absent (or falsy)
contributes nothing to the paired game record — while the teams and
schedule normalizers emit one record per upstream object regardless,
null-filling a missing identity field. -/
theorem C9_identity_dropping (gs : GameStatsRec)
    (fields : List (String × Json)) (rest : List Json)
    (h : teamNameOf (Json.obj fields) = none)
    (parseIso : String → Option Json) :
    pairAux gs (Json.obj fields :: rest) = pairAux gs rest ∧
    (∀ teams : List Json,
      (collect_teams_data_norm (some teams)).length = teams.length) ∧
    (∀ games : List Json,
      (collect_schedule_norm parseIso (some games)).length = games.length) := by
  refine ⟨?_, ?_, ?_⟩
  · simp [pairAux, h]
  · intro teams
    cases teams <;> simp [collect_teams_data_norm]
  · intro games
    cases games <;> simp [collect_schedule_norm]

theorem C9_identity_dropping_witness :
    teamNameOf (Json.obj [("stats", Json.obj [("sacks", Json.num 3)])]) =
      none ∧
    (pairAux ⟨none, none⟩
        [Json.obj [("stats", Json.obj [("sacks", Json.num 3)])],
         gameStatsEntryAlpha] =
      pairAux ⟨none, none⟩ [gameStatsEntryAlpha] ∧
     (∀ teams : List Json,
       (collect_teams_data_norm (some teams)).length = teams.length) ∧
     (∀ games : List Json,
       (collect_schedule_norm (fun _ => none) (some games)).length =
         games.length)) :=
  ⟨rfl, C9_identity_dropping ⟨none, none⟩
    [("stats", Json.obj [("sacks", Json.num 3)])] [gameStatsEntryAlpha]
    rfl (fun _ => none)⟩

/-- Grant times recorded by a limiter run. -/
def grantTimes (r : LimRun) : List Nat := r.log.map (fun e => e.2)

/-- Number of grants of a run inside the half-open window from `t0`
to `t1`. -/
def grantsIn (r : LimRun) (t0 t1 : Nat) : Nat :=
  ((grantTimes r).filter (fun g => decide (t0 ≤ g ∧ g < t1))).length

/-- C2 counterexample: the `ratelimit` decorator keeps one counter per
decorated method, not per endpoint group.  Two stats-API methods (each
`limits(calls=50, period=60)`) together grant 50 + 1 = 51 network
calls inside the single window from time 0 to 60, exceeding the
group's stated budget of 50 — refuting the claim that permitted calls
across all operations of a group never exceed the group's max. -/
theorem C2_counterexample :
    grantsIn (runLim 50 60 initLimRun (List.replicate 50 0)) 0 60 +
      grantsIn (runLim 50 60 initLimRun [0]) 0 60 = 51 ∧ 50 < 51 := by
  constructor
  · decide
  · decide

/-- Inductive invariant of one limiter instance's run: the counter
stays within budget, the window start never passes the latest grant,
the counter counts exactly the grants of the current window, all
logged window tags are at most the current one, every grant lies
inside its window, and no window holds more than `maxCalls` grants. -/
def LimInv (maxCalls period : Nat) (r : LimRun) : Prop :=
  r.state.numCalls ≤ maxCalls ∧
  r.state.lastReset ≤ r.lastGrant ∧
  countTag r.log r.state.lastReset = r.state.numCalls ∧
  (∀ e ∈ r.log, e.1 ≤ r.state.lastReset) ∧
  (∀ e ∈ r.log, e.1 ≤ e.2 ∧ e.2 < e.1 + period) ∧
  (∀ w, countTag r.log w ≤ maxCalls)

theorem countTag_append_single (log : List (Nat × Nat)) (e : Nat × Nat)
    (w : Nat) :
    countTag (log ++ [e]) w = countTag log w + if e.1 = w then 1 else 0 := by
  simp only [countTag, List.filter_append]
  split <;> simp_all

theorem countTag_eq_zero (log : List (Nat × Nat)) (w : Nat)
    (h : ∀ e ∈ log, e.1 < w) : countTag log w = 0 := by
  simp only [countTag, List.length_eq_zero, List.filter_eq_nil_iff]
  intro e he
  simpa using Nat.ne_of_lt (h e he)

theorem limInv_step (maxCalls period : Nat) (hmax : 0 < maxCalls)
    (hper : 0 < period) (r : LimRun) (d : Nat)
    (h : LimInv maxCalls period r) :
    LimInv maxCalls period (stepLim maxCalls period r d) := by
  obtain ⟨hnum, hlr, hcount, htags, hwin, hbound⟩ := h
  have hnow : r.state.lastReset ≤ r.lastGrant + d :=
    le_trans hlr (Nat.le_add_right _ _)
  unfold stepLim acquire
  by_cases h1 : period ≤ r.lastGrant + d - r.state.lastReset
  · -- the window has rolled: reset to a fresh window starting now
    have hlt : r.state.lastReset < r.lastGrant + d := by omega
    simp only [if_pos h1]
    refine ⟨hmax, le_refl _, ?_, ?_, ?_, ?_⟩
    · rw [countTag_append_single,
        countTag_eq_zero r.log _ (fun e he => lt_of_le_of_lt (htags e he) hlt),
        if_pos rfl]
    · intro e he
      rcases List.mem_append.mp he with hel | hel
      · exact le_of_lt (lt_of_le_of_lt (htags e hel) hlt)
      · rw [List.mem_singleton] at hel
        subst hel
        exact le_refl _
    · intro e he
      rcases List.mem_append.mp he with hel | hel
      · exact hwin e hel
      · rw [List.mem_singleton] at hel
        subst hel
        exact ⟨le_refl _, by omega⟩
    · intro w
      rw [countTag_append_single]
      by_cases hw : (r.lastGrant + d) = w
      · subst hw
        rw [countTag_eq_zero r.log _
          (fun e he => lt_of_le_of_lt (htags e he) hlt), if_pos rfl]
        exact hmax
      · rw [if_neg hw]
        simpa using hbound w
  · simp only [if_neg h1]
    by_cases h2 : r.state.numCalls + 1 ≤ maxCalls
    · -- under budget: same window, counter increments, grant is now
      simp only [if_pos h2]
      refine ⟨h2, hnow, ?_, ?_, ?_, ?_⟩
      · rw [countTag_append_single, if_pos rfl, hcount]
      · intro e he
        rcases List.mem_append.mp he with hel | hel
        · exact htags e hel
        · rw [List.mem_singleton] at hel
          subst hel
          exact le_refl _
      · intro e he
        rcases List.mem_append.mp he with hel | hel
        · exact hwin e hel
        · rw [List.mem_singleton] at hel
          subst hel
          exact ⟨hnow, by omega⟩
      · intro w
        rw [countTag_append_single]
        by_cases hw : r.state.lastReset = w
        · subst hw
          rw [if_pos rfl, hcount]
          exact h2
        · rw [if_neg hw]
          simpa using hbound w
    · -- over budget: suspend to the rollover, fresh window there
      simp only [if_neg h2]
      have hfresh : ∀ e ∈ r.log, e.1 < r.state.lastReset + period :=
        fun e he => lt_of_le_of_lt (htags e he) (by omega)
      refine ⟨hmax, le_refl _, ?_, ?_, ?_, ?_⟩
      · rw [countTag_append_single, countTag_eq_zero r.log _ hfresh,
          if_pos rfl]
      · intro e he
        rcases List.mem_append.mp he with hel | hel
        · exact le_of_lt (hfresh e hel)
        · rw [List.mem_singleton] at hel
          subst hel
          exact le_refl _
      · intro e he
        rcases List.mem_append.mp he with hel | hel
        · exact hwin e hel
        · rw [List.mem_singleton] at hel
          subst hel
          exact ⟨le_refl _, by omega⟩
      · intro w
        rw [countTag_append_single]
        by_cases hw : (r.state.lastReset + period) = w
        · subst hw
          rw [countTag_eq_zero r.log _ hfresh, if_pos rfl]
          exact hmax
        · rw [if_neg hw]
          simpa using hbound w

theorem limInv_init (maxCalls period : Nat) :
    LimInv maxCalls period initLimRun := by
  refine ⟨Nat.zero_le _, le_refl _, rfl, ?_, ?_, ?_⟩ <;>
    simp [initLimRun, countTag]

theorem limInv_run (maxCalls period : Nat) (hmax : 0 < maxCalls)
    (hper : 0 < period) (r : LimRun) (h : LimInv maxCalls period r)
    (delays : List Nat) :
    LimInv maxCalls period (runLim maxCalls period r delays) := by
  induction delays generalizing r with
  | nil => exact h
  | cons d ds ih => exact ih _ (limInv_step _ _ hmax hper r d h)

theorem runLim_log_length (maxCalls period : Nat) (r : LimRun)
    (delays : List Nat) :
    (runLim maxCalls period r delays).log.length =
      r.log.length + delays.length := by
  induction delays generalizing r with
  | nil => rfl
  | cons d ds ih =>
      show (runLim maxCalls period (stepLim maxCalls period r d) ds).log.length = _
      rw [ih]
      simp [stepLim]
      omega

/-- C2 amended: each decorated collector method owns its own
fixed-window limiter with the stated constants — the stats-API methods
permit 50 calls per 60-second window, the odds method 450 per
3600-second window — and per limiter instance every sequence of calls
yields exactly one grant per call (none dropped, none erroring), at
most `maxCalls` grants inside any single fixed window, every grant
inside its window, and no call granted before it was issued (an
over-budget call suspends to the window rollover).  The budgets are
per method, not shared across the endpoint group (see the
counterexample). -/
theorem C2_amended (maxCalls period : Nat) (hmax : 0 < maxCalls)
    (hper : 0 < period) (delays : List Nat) (r : LimRun) (d delay : Nat)
    (env : FetchEnv) (parseIso : String → Option Json) :
    ((runLim maxCalls period initLimRun delays).log.length =
      delays.length) ∧
    (∀ w, countTag (runLim maxCalls period initLimRun delays).log w ≤
      maxCalls) ∧
    (∀ e ∈ (runLim maxCalls period initLimRun delays).log,
      e.1 ≤ e.2 ∧ e.2 < e.1 + period) ∧
    (r.lastGrant + d ≤ (stepLim maxCalls period r d).lastGrant) ∧
    ((collect_player_season_stats r delay env).run = stepLim 50 60 r delay) ∧
    ((collect_betting_lines parseIso r delay env).run =
      stepLim 450 3600 r delay) := by
  obtain ⟨-, -, -, -, hwin, hbound⟩ :=
    limInv_run maxCalls period hmax hper initLimRun
      (limInv_init maxCalls period) delays
  refine ⟨?_, hbound, hwin, ?_, rfl, rfl⟩
  · rw [runLim_log_length]
    simp [initLimRun]
  · unfold stepLim acquire
    by_cases h1 : period ≤ r.lastGrant + d - r.state.lastReset
    · simp [h1]
    · by_cases h2 : r.state.numCalls + 1 ≤ maxCalls
      · simp [h1, h2]
      · simp only [if_neg h1, if_neg h2]
        omega

theorem C2_amended_witness :
    0 < 50 ∧ 0 < 60 ∧
    (((runLim 50 60 initLimRun [0, 0, 30]).log.length = 3) ∧
     (∀ w, countTag (runLim 50 60 initLimRun [0, 0, 30]).log w ≤ 50) ∧
     (∀ e ∈ (runLim 50 60 initLimRun [0, 0, 30]).log,
       e.1 ≤ e.2 ∧ e.2 < e.1 + 60) ∧
     (initLimRun.lastGrant + 5 ≤ (stepLim 50 60 initLimRun 5).lastGrant) ∧
     ((collect_player_season_stats initLimRun 7
        { cacheRead := .miss, net := .connErr,
          cacheWriteFails := false }).run = stepLim 50 60 initLimRun 7) ∧
     ((collect_betting_lines (fun _ => none) initLimRun 7
        { cacheRead := .miss, net := .connErr,
          cacheWriteFails := false }).run = stepLim 450 3600 initLimRun 7)) :=
  ⟨by decide, by decide,
    C2_amended 50 60 (by decide) (by decide) [0, 0, 30] initLimRun 5 7
      { cacheRead := .miss, net := .connErr, cacheWriteFails := false }
      (fun _ => none)⟩

end NCAAF
